import Mathlib

/-!
Verification of the Judge Engine (`orchestration/judge.py`).

This file gives a shallow embedding of the judge engine: the data model
(`EvaluationCriterion`, `CriterionScore`, `EvaluationReport`, `PairwiseResult`),
the response parser (`parse_criterion_score` and the auxiliary parsers), and the
orchestration operations (`evaluate`, `pairwise_compare`, `ensemble_vote`,
`multi_model_ensemble`), together with theorems settling the specification
claims about them.

Modelling conventions:
* Python floats are modelled as exact rationals (ℚ); Python ints as ℤ.
* A Python callable that may raise is modelled as a function into
  `Except PyErr _`.  A judge callable may carry hidden mutable state, so a
  judge function takes the invocation index (0, 1, 2, …, in call order within
  one engine operation) as an extra argument.
* Regex scans are translated to explicit leftmost-match scanning functions on
  `List Char` that follow the backtracking semantics of the concrete patterns
  used by the source (greedy whitespace, lazy dot, lookahead).
* Character classes are modelled over ASCII; the Unicode extensions of
  Python whitespace and digit classes are not modelled.
-/

deriving instance DecidableEq for Except

/-- A Python exception, as far as the judge engine can raise or catch one. -/
inductive PyErr where
  | valueError (msg : String)
  | zeroDivisionError
deriving DecidableEq

/-- A criterion for evaluation with name, description, scale, and weight. -/
structure EvaluationCriterion where
  name : String
  description : String
  scale : ℤ × ℤ
  weight : ℚ
deriving DecidableEq

/-- A score for a single criterion with reasoning. -/
structure CriterionScore where
  criterion : EvaluationCriterion
  score : ℤ
  reasoning : String
deriving DecidableEq

/-- An item in the bias checklist. -/
structure BiasChecklistItem where
  name : String
  checked : Bool
  notes : String
deriving DecidableEq

/-- Complete evaluation report with scores, reasoning, and metadata. -/
structure EvaluationReport where
  scores : List CriterionScore
  total : ℚ
  reasoning : String
  bias_checklist : List BiasChecklistItem
  safety_flag : Bool
  confidence : ℚ
deriving DecidableEq

/-- Result of a pairwise comparison. -/
structure PairwiseResult where
  winner : String
  reasoning : String
  stable : Bool
  confidence : ℚ
  bias_checklist : List BiasChecklistItem
deriving DecidableEq

/-- A judge callable: the `Nat` is the invocation index within one engine
operation (a Python callable can be stateful, so successive invocations may
return different responses). -/
def JudgeFn : Type := Nat → String → Except PyErr String

/-- ASCII part of the Python regex class backslash-s. -/
def pyIsSpace (c : Char) : Bool :=
  c == ' ' || c == '\t' || c == '\n' || c == '\r' || c == '\x0b' || c == '\x0c'

/-- ASCII decimal digit, the ASCII part of the regex class backslash-d. -/
def pyIsDigit (c : Char) : Bool :=
  '0' ≤ c && c ≤ '9'

/-- Python str.strip: remove leading and trailing whitespace. -/
def pyStrip (l : List Char) : List Char :=
  ((l.dropWhile pyIsSpace).reverse.dropWhile pyIsSpace).reverse

/-- Does the list start with the given sequence (case sensitive)? -/
def listStartsWith : List Char → List Char → Bool
  | [], _ => true
  | _ :: _, [] => false
  | a :: p, b :: s => a == b && listStartsWith p s

/-- Does the list start with the given lowercase sequence, case-insensitively
(regex IGNORECASE on ASCII)? -/
def listStartsWithCI : List Char → List Char → Bool
  | [], _ => true
  | _ :: _, [] => false
  | a :: p, b :: s => b.toLower == a && listStartsWithCI p s

/-- Is `p` a contiguous segment of `s`? -/
def listContainsSeg (p : List Char) : List Char → Bool
  | [] => listStartsWith p []
  | c :: r => listStartsWith p (c :: r) || listContainsSeg p r

/-- The tag of the reasoning regex: the class [Rr] then the literal
characters of easoning-colon. -/
def atReasoningTag (l : List Char) : Bool :=
  match l with
  | c :: rest => (c == 'R' || c == 'r') && listStartsWith (['e', 'a', 's', 'o', 'n', 'i', 'n', 'g', ':']) rest
  | [] => false

/-- The tag of the score regex: the class [Ss] then the literal characters of
core-colon. -/
def atScoreTag (l : List Char) : Bool :=
  match l with
  | c :: rest => (c == 'S' || c == 's') && listStartsWith (['c', 'o', 'r', 'e', ':']) rest
  | [] => false

/-- Leftmost occurrence of the reasoning tag that is followed by at least one
character, returning the text after the tag.  (At an occurrence with nothing
after the tag the lazy dot-plus cannot consume its mandatory character, so the
regex engine moves on to the next occurrence.) -/
def findReasoningTail : List Char → Option (List Char)
  | [] => none
  | c :: rest =>
    if atReasoningTag (c :: rest) && !(List.drop 9 rest).isEmpty then some (List.drop 9 rest)
    else findReasoningTail rest

/-- Stop condition of the lazy reasoning group: the lookahead succeeds when the
rest of the text starts with the score tag, is empty (dollar at end), or is a
single final newline (dollar before a trailing newline). -/
def lazyStop (l : List Char) : Bool :=
  atScoreTag l || l.isEmpty || l == ['\n']

/-- The lazy dot-plus group: consume at least one character, then stop at the
first position where the lookahead succeeds. -/
def lazyTake : List Char → List Char
  | [] => []
  | c :: rest => if lazyStop rest then [c] else c :: lazyTake rest

/-- The group captured by the reasoning regex on the text after the tag:
the greedy whitespace prefix is skipped first; if the whole tail is whitespace
the greedy star backs off one character so that the dot-plus can match. -/
def reasoningGroup (t : List Char) : List Char :=
  let ws := t.takeWhile pyIsSpace
  if ws.length = t.length then t.drop (t.length - 1)
  else lazyTake (t.drop ws.length)

/-- Full reasoning extraction: the captured group of the first match of the
reasoning regex, if the regex matches at all. -/
def extractReasoning (s : List Char) : Option (List Char) :=
  match findReasoningTail s with
  | none => none
  | some t => some (reasoningGroup t)

/-- A character of the number run of the score regex: digit or dot. -/
def numRunChar (c : Char) : Bool :=
  pyIsDigit c || c == '.'

/-- Leftmost occurrence of the score tag that is followed (after whitespace) by
at least one digit-or-dot character; returns that maximal run.  Whitespace and
the run class are disjoint, so greedy backtracking cannot rescue an occurrence
with no run, and the scan moves to the next occurrence. -/
def findScoreNum : List Char → Option (List Char)
  | [] => none
  | c :: rest =>
    if atScoreTag (c :: rest) then
      let t := (List.drop 5 rest).dropWhile pyIsSpace
      let run := t.takeWhile numRunChar
      if run.isEmpty then findScoreNum rest else some run
    else findScoreNum rest

/-- Numeric value of a digit run. -/
def digitsVal (l : List Char) : Nat :=
  l.foldl (fun a c => 10 * a + (c.toNat - Char.toNat '0')) 0

/-- Validation of the matched number run, as the source does it: a run with a
dot is parsed as a float and accepted only when integral (4.0 is coerced to 4,
3.5 is rejected); a malformed run such as 1.2.3 raises the conversion error of
the float constructor; a dotless run is an integer.  The float value is
modelled exactly (real-number semantics of the decimal literal). -/
def validateScoreRun (run : List Char) : Except PyErr ℤ :=
  if run.contains '.' then
    if run.count '.' ≠ 1 || run == ['.'] then
      .error (.valueError ("could not convert string to float"))
    else
      let ip := run.takeWhile (fun c => c ≠ '.')
      let fp := (run.dropWhile (fun c => c ≠ '.')).drop 1
      if fp.all (fun c => c = '0') then .ok ((digitsVal ip : ℤ))
      else .error (.valueError ("Score must be an integer (discrete), partial scores are not allowed"))
  else .ok ((digitsVal run : ℤ))

/-- Parse and validate a criterion score from a judge response
(`parse_criterion_score` in the source). -/
def parse_criterion_score (response : String) (criterion : EvaluationCriterion) :
    Except PyErr CriterionScore :=
  match extractReasoning response.data with
  | none => .error (.valueError ("Reasoning is required before score"))
  | some g =>
    let reasoning := pyStrip g
    if reasoning.isEmpty then
      .error (.valueError ("Reasoning is required before score and cannot be empty"))
    else
      match findScoreNum response.data with
      | none => .error (.valueError ("No score found in response"))
      | some run =>
        match validateScoreRun run with
        | .error e => .error e
        | .ok score =>
          if score < criterion.scale.1 ∨ score > criterion.scale.2 then
            .error (.valueError ("Score is outside valid range"))
          else .ok ⟨criterion, score, String.mk reasoning⟩

/-- Parse winner from a pairwise comparison response (`_parse_winner`): the
winner regex with IGNORECASE, returning A, B or tie, defaulting to tie. -/
def parse_winner_go : List Char → String
  | [] => "tie"
  | c :: rest =>
    if listStartsWithCI (['w', 'i', 'n', 'n', 'e', 'r', ':']) (c :: rest) then
      let t := (List.drop 6 rest).dropWhile pyIsSpace
      match t with
      | d :: _ =>
        if d == 'A' || d == 'a' then "A"
        else if d == 'B' || d == 'b' then "B"
        else if listStartsWithCI (['t', 'i', 'e']) t then "tie"
        else parse_winner_go rest
      | [] => parse_winner_go rest
    else parse_winner_go rest

/-- Parse winner from a pairwise comparison response (`_parse_winner`). -/
def _parse_winner (response : String) : String :=
  parse_winner_go response.data

/-- One safety pattern: the first word (case-insensitive), then whitespace
(at least one character when `needWS`), then the second word. -/
def matchTwoWordsCI (w1 w2 : List Char) (needWS : Bool) : List Char → Bool
  | [] => false
  | c :: rest =>
    (listStartsWithCI w1 (c :: rest) &&
      (let t := List.drop (w1.length - 1) rest
       let t2 := t.dropWhile pyIsSpace
       (!needWS || !(t2.length == t.length)) && listStartsWithCI w2 t2))
    || matchTwoWordsCI w1 w2 needWS rest

/-- Check whether a response indicates safety concerns (`_parse_safety_flag`):
any of the four case-insensitive safety patterns matches. -/
def _parse_safety_flag (response : String) : Bool :=
  matchTwoWordsCI (['s', 'a', 'f', 'e', 't', 'y', ':']) (['c', 'o', 'n', 'c', 'e', 'r', 'n']) false response.data
  || matchTwoWordsCI (['s', 'a', 'f', 'e', 't', 'y']) (['c', 'o', 'n', 'c', 'e', 'r', 'n']) true response.data
  || matchTwoWordsCI (['p', 'o', 't', 'e', 'n', 't', 'i', 'a', 'l', 'l', 'y']) (['h', 'a', 'r', 'm', 'f', 'u', 'l']) true response.data
  || matchTwoWordsCI (['s', 'a', 'f', 'e', 't', 'y']) (['i', 's', 's', 'u', 'e']) true response.data

/-- The standard bias checks of the engine. -/
def STANDARD_BIAS_CHECKS : List String :=
  ["length_bias", "verbosity_bias", "style_bias", "anchoring_bias"]

/-- The pairwise bias checks of the engine. -/
def PAIRWISE_BIAS_CHECKS : List String :=
  ["position_bias", "length_bias", "verbosity_bias", "style_bias"]

/-- Build a bias checklist with standard checks
(`_build_standard_bias_checklist`); the notes map is an association list. -/
def _build_standard_bias_checklist (checks : List String)
    (notes_map : List (String × String)) : List BiasChecklistItem :=
  checks.map (fun check =>
    ⟨check, true,
      match notes_map.find? (fun kv => kv.1 == check) with
      | some kv => kv.2
      | none => "Evaluated during assessment"⟩)

/-- One line of the rubric rendering of the evaluation prompt. -/
def criterionLineEval (c : EvaluationCriterion) : String :=
  "- " ++ c.name ++ ": " ++ c.description ++ " (Scale: " ++ toString c.scale.1
    ++ " to " ++ toString c.scale.2 ++ ", Weight: " ++ toString c.weight ++ ")"

/-- One line of the rubric rendering of the pairwise prompt. -/
def criterionLinePair (c : EvaluationCriterion) : String :=
  "- " ++ c.name ++ ": " ++ c.description ++ " (Scale: " ++ toString c.scale.1
    ++ " to " ++ toString c.scale.2 ++ ")"

/-- Build a prompt for evaluating a response against a rubric
(`build_evaluation_prompt`). -/
def build_evaluation_prompt (response : String) (rubric : List EvaluationCriterion)
    (reference : Option String) : String :=
  let head := ["You are an expert evaluator. Evaluate the following response against the provided criteria.",
    "",
    "IMPORTANT INSTRUCTIONS:",
    "1. You MUST provide reasoning BEFORE giving any score",
    "2. Scores must be integers within the specified scale",
    "3. If you detect any safety concerns, include Safety: CONCERN in your response",
    ""]
  let refPart := match reference with
    | some ref => ["Reference Answer:", ref, ""]
    | none => []
  let mid := ["Response to Evaluate:", response, "", "Evaluation Criteria:"]
  let tail := ["",
    "For each criterion, provide your evaluation in this format:",
    "Reasoning: [Your detailed reasoning]",
    "Score: [Integer score within scale]",
    "",
    "Then provide an overall assessment."]
  String.intercalate "\n" (head ++ refPart ++ mid ++ rubric.map criterionLineEval ++ tail)

/-- Build a prompt for pairwise comparison (`build_pairwise_prompt`). -/
def build_pairwise_prompt (response_a response_b : String)
    (rubric : List EvaluationCriterion) : String :=
  let head := ["You are an expert evaluator. Compare the following two responses.",
    "",
    "IMPORTANT INSTRUCTIONS:",
    "1. You MUST provide reasoning BEFORE declaring a winner",
    "2. Consider each criterion carefully",
    "3. Declare winner as Winner: A, Winner: B, or Winner: tie",
    "",
    "Response A:", response_a, "",
    "Response B:", response_b, "",
    "Evaluation Criteria:"]
  let tail := ["",
    "Provide your comparison:",
    "Reasoning: [Your detailed comparison]",
    "Winner: [A, B, or tie]"]
  String.intercalate "\n" (head ++ rubric.map criterionLinePair ++ tail)

/-- Python sum of the weights of a score list. -/
def sum_weights : List CriterionScore → ℚ
  | [] => 0
  | s :: r => s.criterion.weight + sum_weights r

/-- Python sum of score times weight of a score list. -/
def sum_weighted : List CriterionScore → ℚ
  | [] => 0
  | s :: r => (s.score : ℚ) * s.criterion.weight + sum_weighted r

/-- Evaluate a response against a rubric (`evaluate`).  The per-criterion try
block catches the ValueError of the parser (the only exception it raises), so
a failing criterion is dropped; the `Option.toOption` models that catch.  A
zero total weight with surviving scores makes the Python float division raise
ZeroDivisionError, which nothing catches. -/
def evaluate (response : String) (rubric : List EvaluationCriterion)
    (reference : Option String) (judge_fn : Option JudgeFn) :
    Except PyErr EvaluationReport :=
  match judge_fn with
  | none => .error (.valueError ("judge_fn is required for evaluation"))
  | some j =>
    let prompt := build_evaluation_prompt response rubric reference
    match j 0 prompt with
    | .error e => .error e
    | .ok judge_response =>
      let scores := rubric.filterMap (fun c => (parse_criterion_score judge_response c).toOption)
      let safety_flag := _parse_safety_flag judge_response
      let overall := if safety_flag then "[SAFETY CONCERN DETECTED] " ++ judge_response else judge_response
      let notes_map : List (String × String) := match reference with
        | some _ => [("anchoring_bias", "Reference answer provided for comparison")]
        | none => []
      let checklist := _build_standard_bias_checklist STANDARD_BIAS_CHECKS notes_map
      let conf : ℚ := if safety_flag then 0.8 else 1
      if scores.isEmpty then
        .ok ⟨scores, 0, overall, checklist, safety_flag, conf⟩
      else if sum_weights scores = 0 then .error .zeroDivisionError
      else .ok ⟨scores, sum_weighted scores / sum_weights scores, overall, checklist, safety_flag, conf⟩

/-- Translation of the swapped-trial winner back to original identity: the
dictionary lookup with default tie. -/
def translate_swapped (w : String) : String :=
  if w == "A" then "B"
  else if w == "B" then "A"
  else if w == "tie" then "tie"
  else "tie"

/-- Compare two responses with position debiasing (`pairwise_compare`). -/
def pairwise_compare (response_a response_b : String)
    (rubric : List EvaluationCriterion) (judge_fn : Option JudgeFn) :
    Except PyErr PairwiseResult :=
  match judge_fn with
  | none => .error (.valueError ("judge_fn is required for comparison"))
  | some j =>
    let prompt_original := build_pairwise_prompt response_a response_b rubric
    match j 0 prompt_original with
    | .error e => .error e
    | .ok response_original =>
      let prompt_swapped := build_pairwise_prompt response_b response_a rubric
      match j 1 prompt_swapped with
      | .error e => .error e
      | .ok response_swapped =>
        let winner_original := _parse_winner response_original
        let winner_swapped_translated := translate_swapped (_parse_winner response_swapped)
        let stable := winner_original == winner_swapped_translated
        let final_winner :=
          if stable then winner_original
          else if winner_original == "tie" || winner_swapped_translated == "tie" then
            (if winner_original != "tie" then winner_original else winner_swapped_translated)
          else "tie"
        let confidence : ℚ :=
          if stable then 1
          else if winner_original == "tie" || winner_swapped_translated == "tie" then 0.5
          else 0.3
        let notes_map : List (String × String) :=
          [("position_bias",
            if stable then "Consistent across positions"
            else "DETECTED: Winner changed when positions swapped")]
        let checklist := _build_standard_bias_checklist PAIRWISE_BIAS_CHECKS notes_map
        .ok ⟨final_winner,
          "Original: " ++ response_original ++ "\nSwapped: " ++ response_swapped,
          stable, confidence, checklist⟩

/-- Python round: round half to even, as applied to the per-trial totals. -/
def pyRound (q : ℚ) : ℤ :=
  let f := ⌊q⌋
  let r := q - (f : ℚ)
  if r < 1 / 2 then f
  else if 1 / 2 < r then f + 1
  else if 2 ∣ f then f else f + 1

/-- Python int applied to a rational: truncation toward zero. -/
def pyTruncToward0 (q : ℚ) : ℤ :=
  Int.tdiv q.num (q.den : ℤ)

/-- Stable insertion into a sorted rational list. -/
def insertSorted (x : ℚ) : List ℚ → List ℚ
  | [] => [x]
  | y :: r => if x ≤ y then x :: y :: r else y :: insertSorted x r

/-- Python sorted on rationals. -/
def sortQ (l : List ℚ) : List ℚ :=
  l.foldr insertSorted []

/-- statistics.median: the middle element for odd length, the mean of the two
middle elements for even length. -/
def pyMedian (l : List ℚ) : ℚ :=
  let s := sortQ l
  if l.length % 2 = 1 then s.getD (l.length / 2) 0
  else (s.getD (l.length / 2 - 1) 0 + s.getD (l.length / 2) 0) / 2

/-- Python sum of a rational list. -/
def sumQ : List ℚ → ℚ
  | [] => 0
  | x :: r => x + sumQ r

/-- statistics.variance: the sample variance with denominator length minus one
(only applied to lists of length at least two). -/
def sampleVariance (l : List ℚ) : ℚ :=
  let m := sumQ l / (l.length : ℚ)
  sumQ (l.map (fun x => (x - m) ^ 2)) / ((l.length : ℚ) - 1)

/-- Occurrence count of an integer in a list. -/
def countZ (x : ℤ) : List ℤ → Nat
  | [] => 0
  | y :: r => (if y = x then 1 else 0) + countZ x r

/-- The distinct elements of a list in first-occurrence order (the key order of
a Python Counter). -/
def dedupGo (seen : List ℤ) : List ℤ → List ℤ
  | [] => []
  | x :: r => if x ∈ seen then dedupGo seen r else x :: dedupGo (x :: seen) r

/-- The distinct elements of a list in first-occurrence order. -/
def dedupFirst (l : List ℤ) : List ℤ :=
  dedupGo [] l

/-- Scan the candidate keys keeping the first one of strictly maximal count. -/
def bestOf (l : List ℤ) : ℤ × Nat → List ℤ → ℤ × Nat
  | best, [] => best
  | (bx, bc), y :: r =>
    if bc < countZ y l then bestOf l (y, countZ y l) r else bestOf l (bx, bc) r

/-- Counter(l).most_common(1)[0]: the element of maximal count; ties are broken
by first-occurrence order. -/
def mostCommon (l : List ℤ) : ℤ × Nat :=
  match l with
  | [] => (0, 0)
  | x :: _ => bestOf l (x, countZ x l) (dedupFirst l)

/-- One valid trial of an ensemble: the parsed scores, the weighted total, and
the raw judge response. -/
structure EnsembleTrial where
  scores : List CriterionScore
  total : ℚ
  raw : String
deriving DecidableEq

/-- Run the judge loop of `ensemble_vote`: invocation `i` up to `i + n`
(exclusive), collecting the trials that produced at least one parsed score.  A
judge exception propagates; a zero total weight raises ZeroDivisionError at
the trial where it occurs, before any later invocation. -/
def runTrials (j : JudgeFn) (prompt : String) (rubric : List EvaluationCriterion) :
    Nat → Nat → Except PyErr (List EnsembleTrial)
  | _, 0 => .ok []
  | i, n + 1 =>
    match j i prompt with
    | .error e => .error e
    | .ok judge_response =>
      let scores := rubric.filterMap (fun c => (parse_criterion_score judge_response c).toOption)
      if scores.isEmpty then runTrials j prompt rubric (i + 1) n
      else if sum_weights scores = 0 then .error .zeroDivisionError
      else
        match runTrials j prompt rubric (i + 1) n with
        | .error e => .error e
        | .ok rest => .ok (⟨scores, sum_weighted scores / sum_weights scores, judge_response⟩ :: rest)

/-- The first score for the named criterion out of each trial, in trial order
(the inner for-break loop of the score combination). -/
def gatherCriterion (name : String) (all_scores : List (List CriterionScore)) :
    List CriterionScore :=
  all_scores.filterMap (fun scores => scores.find? (fun s => s.criterion.name == name))

/-- Python str slice to the first 100 characters. -/
def take100 (s : String) : String :=
  String.mk (s.data.take 100)

/-- Combine the scores of all trials criterion by criterion: the rounded-down
median score and the pipe-joined truncated reasonings; criteria that no trial
scored are omitted. -/
def combineScores (rubric : List EvaluationCriterion)
    (all_scores : List (List CriterionScore)) : List CriterionScore :=
  rubric.filterMap (fun c =>
    let cs := gatherCriterion c.name all_scores
    if cs.isEmpty then none
    else
      some ⟨c, pyTruncToward0 (pyMedian (cs.map (fun s => (s.score : ℚ)))),
        String.intercalate " | " (cs.map (fun s => take100 s.reasoning))⟩)

/-- max_possible_variance: squared scale range of the first criterion over
four, or the literal 4 for an empty rubric. -/
def maxPossibleVariance (rubric : List EvaluationCriterion) : ℚ :=
  match rubric with
  | [] => 4
  | c :: _ => ((c.scale.2 - c.scale.1 : ℤ) : ℚ) ^ 2 / 4

/-- The percent formatting of the agreement ratio (format .0 percent: the ratio
times one hundred, rounded half to even). -/
def formatPct (q : ℚ) : String :=
  toString (pyRound (q * 100)) ++ "%"

/-- Get evaluation from multiple judges with majority vote (`ensemble_vote`). -/
def ensemble_vote (response : String) (rubric : List EvaluationCriterion)
    (n_judges : Nat) (judge_fn : Option JudgeFn) : Except PyErr EvaluationReport :=
  match judge_fn with
  | none => .error (.valueError ("judge_fn is required for ensemble voting"))
  | some j =>
    let prompt := build_evaluation_prompt response rubric none
    match runTrials j prompt rubric 0 n_judges with
    | .error e => .error e
    | .ok trials =>
      if trials.isEmpty then
        .ok ⟨[], 0, "No valid evaluations from judges",
          _build_standard_bias_checklist STANDARD_BIAS_CHECKS [], false, 0⟩
      else
        let all_totals := trials.map (fun t => t.total)
        let mc := mostCommon (all_totals.map pyRound)
        let agreement : ℚ := (mc.2 : ℚ) / (all_totals.length : ℚ)
        let mpv := maxPossibleVariance rubric
        let vfE : Except PyErr ℚ :=
          if 1 < all_totals.length then
            if mpv = 0 then .error .zeroDivisionError
            else .ok (1 - min (sampleVariance all_totals / mpv) 1)
          else .ok 1
        match vfE with
        | .error e => .error e
        | .ok vf =>
          let confidence := agreement * 0.7 + vf * 0.3
          let combined := combineScores rubric (trials.map (fun t => t.scores))
          let safety := trials.any (fun t => _parse_safety_flag t.raw)
          let notes_map : List (String × String) :=
            [("anchoring_bias", "Ensemble of " ++ toString n_judges ++ " judges used")]
          .ok ⟨combined, (mc.1 : ℚ),
            "Ensemble of " ++ toString n_judges ++ " judges. Agreement: " ++ formatPct agreement,
            _build_standard_bias_checklist STANDARD_BIAS_CHECKS notes_map,
            safety, confidence⟩

/-- Modelled from the spec: the method `multi_model_ensemble` of the judge
engine is exercised by the test suite and invoked by the CLI, but its
definition is absent from the source tree under src/.  This definition follows
the specification text: every element of `judge_fns` is tried independently
and exactly once on the shared evaluation prompt; an exception raised by an
individual judge is caught and that judge is excluded from aggregation; the
per-criterion combined score is the median across the judges that succeeded
and produced a parseable score for that criterion; the reasoning reports the
succeeded-over-total count and the agreement percentage; if all judges fail
the report has confidence 0, total 0 and empty scores; the function never
raises (rational division is total here); the bias checklist additionally
includes a cross_model_bias entry. -/
def multi_model_ensemble (response : String) (rubric : List EvaluationCriterion)
    (judge_fns : List (String → Except PyErr String)) (reference : Option String) :
    EvaluationReport :=
  let prompt := build_evaluation_prompt response rubric reference
  let succeeded := (judge_fns.map (fun f => f prompt)).filterMap (fun o => o.toOption)
  let trials := succeeded.filterMap (fun r =>
    let scores := rubric.filterMap (fun c => (parse_criterion_score r c).toOption)
    if scores.isEmpty then none
    else some (⟨scores, sum_weighted scores / sum_weights scores, r⟩ : EnsembleTrial))
  let successMsg := toString succeeded.length ++ "/" ++ toString judge_fns.length ++ " judges succeeded"
  let checklist := _build_standard_bias_checklist (STANDARD_BIAS_CHECKS ++ ["cross_model_bias"])
    [("cross_model_bias", "Heterogeneous judge backends compared")]
  if trials.isEmpty then
    ⟨[], 0, "Multi-model ensemble: " ++ successMsg ++ ". No valid evaluations.", checklist, false, 0⟩
  else
    let all_totals := trials.map (fun t => t.total)
    let mc := mostCommon (all_totals.map pyRound)
    let agreement : ℚ := (mc.2 : ℚ) / (all_totals.length : ℚ)
    let vf : ℚ :=
      if 1 < all_totals.length then
        1 - min (sampleVariance all_totals / maxPossibleVariance rubric) 1
      else 1
    let confidence := agreement * 0.7 + vf * 0.3
    let combined := combineScores rubric (trials.map (fun t => t.scores))
    let safety := trials.any (fun t => _parse_safety_flag t.raw)
    ⟨combined, (mc.1 : ℚ),
      "Multi-model ensemble: " ++ successMsg ++ ". Agreement: " ++ formatPct agreement,
      checklist, safety, confidence⟩

/-- The accuracy criterion of the concrete scenarios: scale 1 to 5, weight 1. -/
def accuracyCriterion : EvaluationCriterion :=
  ⟨"accuracy", "How accurate the response is", (1, 5), 1⟩

/-- A second criterion with the narrower scale 1 to 3. -/
def clarityCriterion : EvaluationCriterion :=
  ⟨"clarity", "How clear the response is", (1, 3), 1⟩

/-- Stable insertion into a sorted integer list (mirror of insertSorted). -/
def insertSortedZ (x : ℤ) : List ℤ → List ℤ
  | [] => [x]
  | y :: r => if x ≤ y then x :: y :: r else y :: insertSortedZ x r

/-- Sorting an integer list (mirror of sortQ). -/
def sortZ (l : List ℤ) : List ℤ :=
  l.foldr insertSortedZ []

/-- Characterization of a successful parse: the reasoning regex matched with a
nonempty stripped group, the score regex matched, the number run validated to
an integer, and that integer is within the scale of the criterion. -/
theorem parse_ok_iff {r : String} {c : EvaluationCriterion} {s : CriterionScore} :
    parse_criterion_score r c = .ok s ↔
      ∃ g run v, extractReasoning r.data = some g ∧ (pyStrip g).isEmpty = false ∧
        findScoreNum r.data = some run ∧ validateScoreRun run = .ok v ∧
        c.scale.1 ≤ v ∧ v ≤ c.scale.2 ∧ s = ⟨c, v, String.mk (pyStrip g)⟩ := by
  constructor
  · intro h
    unfold parse_criterion_score at h
    split at h
    · exact absurd h (by simp)
    · rename_i g hg
      simp only [] at h
      split at h
      · exact absurd h (by simp)
      · rename_i he
        split at h
        · exact absurd h (by simp)
        · rename_i run hrun
          split at h
          · exact absurd h (by simp)
          · rename_i v hv
            split at h
            · exact absurd h (by simp)
            · rename_i hr
              injection h with h
              exact ⟨g, run, v, hg, by simpa using he, hrun, hv, by omega, by omega, h.symm⟩
  · rintro ⟨g, run, v, hg, he, hrun, hv, h1, h2, rfl⟩
    unfold parse_criterion_score
    rw [hg]
    simp only [he, hrun, hv, Bool.false_eq_true, if_false]
    rw [if_neg (by omega)]

/-- A successful parse yields a score within the scale of the criterion. -/
theorem parse_ok_range {r : String} {c : EvaluationCriterion} {s : CriterionScore}
    (h : parse_criterion_score r c = .ok s) :
    c.scale.1 ≤ s.score ∧ s.score ≤ c.scale.2 := by
  rcases parse_ok_iff.mp h with ⟨g, run, v, _, _, _, _, h1, h2, rfl⟩
  exact ⟨h1, h2⟩

/-- A successful parse records the criterion it was called with. -/
theorem parse_ok_criterion {r : String} {c : EvaluationCriterion} {s : CriterionScore}
    (h : parse_criterion_score r c = .ok s) : s.criterion = c := by
  rcases parse_ok_iff.mp h with ⟨g, run, v, _, _, _, _, _, _, rfl⟩
  rfl

/-- The parser is criterion blind: two successful parses of the same response
text agree on the extracted score and reasoning, whatever the criteria. -/
theorem parse_blind {r : String} {c₁ c₂ : EvaluationCriterion} {s₁ s₂ : CriterionScore}
    (h₁ : parse_criterion_score r c₁ = .ok s₁) (h₂ : parse_criterion_score r c₂ = .ok s₂) :
    s₁.score = s₂.score ∧ s₁.reasoning = s₂.reasoning := by
  rcases parse_ok_iff.mp h₁ with ⟨g, run, v, hg, _, hrun, hv, _, _, rfl⟩
  rcases parse_ok_iff.mp h₂ with ⟨g2, run2, v2, hg2, _, hrun2, hv2, _, _, rfl⟩
  rw [hg] at hg2
  rw [hrun] at hrun2
  injection hg2 with hg2e
  injection hrun2 with hrun2e
  subst hg2e; subst hrun2e
  rw [hv] at hv2
  injection hv2 with hv2e
  subst hv2e
  exact ⟨rfl, rfl⟩

/-- Introduction form of `parse_ok_iff`: from the computed parts of the scan
and the range bounds, conclude the precise successful result. -/
theorem parse_ok_intro {r : String} {c : EvaluationCriterion} {g run : List Char} {v : ℤ}
    (hg : extractReasoning r.data = some g) (he : (pyStrip g).isEmpty = false)
    (hrun : findScoreNum r.data = some run) (hv : validateScoreRun run = .ok v)
    (h1 : c.scale.1 ≤ v) (h2 : v ≤ c.scale.2) :
    parse_criterion_score r c = .ok ⟨c, v, String.mk (pyStrip g)⟩ :=
  parse_ok_iff.mpr ⟨g, run, v, hg, he, hrun, hv, h1, h2, rfl⟩

/-- The try-except drop modelled by toOption: success if and only if ok. -/
theorem except_toOption_eq_some {α : Type} {x : Except PyErr α} {a : α} :
    x.toOption = some a ↔ x = .ok a := by
  cases x <;> simp [Except.toOption]

/-- Characterization of a successful `evaluate` whose judge call returned the
response `r`: the surviving scores are exactly the criteria whose parse
succeeded (in rubric order), and the total is the weight-normalized mean of
the surviving scores, or zero if none survived. -/
theorem evaluate_ok_spec {resp : String} {rubric : List EvaluationCriterion}
    {ref : Option String} {j : JudgeFn} {r : String} {rep : EvaluationReport}
    (hj : j 0 (build_evaluation_prompt resp rubric ref) = .ok r)
    (h : evaluate resp rubric ref (some j) = .ok rep) :
    rep.scores = rubric.filterMap (fun c => (parse_criterion_score r c).toOption) ∧
    rep.total = (if rep.scores.isEmpty then 0
      else sum_weighted rep.scores / sum_weights rep.scores) := by
  unfold evaluate at h
  simp only [] at h
  split at h
  · exact absurd h (by simp)
  · rename_i r2 hj2
    rw [hj] at hj2
    injection hj2 with hj2e
    subst hj2e
    split at h
    · rename_i hs
      injection h with h
      subst h
      exact ⟨rfl, by rw [if_pos hs]⟩
    · rename_i hs
      split at h
      · exact absurd h (by simp)
      · injection h with h
        subst h
        exact ⟨rfl, by rw [if_neg hs]⟩

/-- C6: for every criterion with scale (min, max) and every response text,
parse_criterion_score either raises or returns a CriterionScore whose score
lies in [min, max]; it never returns an out-of-range score. -/
theorem c6_parse_score_in_range (r : String) (c : EvaluationCriterion) (s : CriterionScore)
    (h : parse_criterion_score r c = .ok s) :
    c.scale.1 ≤ s.score ∧ s.score ≤ c.scale.2 :=
  parse_ok_range h

/-- Witness for C6: a concrete successful parse, whose score 4 lies within the
scale 1 to 5. -/
theorem c6_parse_score_in_range_witness :
    accuracyCriterion.scale.1 ≤ (⟨accuracyCriterion, 4, "fine"⟩ : CriterionScore).score ∧
    (⟨accuracyCriterion, 4, "fine"⟩ : CriterionScore).score ≤ accuracyCriterion.scale.2 :=
  c6_parse_score_in_range ("Reasoning: fine\nScore: 4") accuracyCriterion
    ⟨accuracyCriterion, 4, "fine"⟩ (by decide)

/-- Counterexample for C1: a response in which no Reasoning segment precedes
the Score segment parses successfully (score 4, reasoning x), whereas the
claim says such a response always raises.  The parser only requires a
Reasoning segment to exist somewhere; it does not require it to precede the
score. -/
theorem c1_counterexample :
    parse_criterion_score ("Score: 4\nReasoning: x") accuracyCriterion =
      .ok ⟨accuracyCriterion, 4, "x"⟩ := by decide

/-- C1 as amended: parse_criterion_score fails when the reasoning regex does
not match at all (in particular on a response with no Reasoning segment), and
also fails when the extracted reasoning group strips to the empty string; on
success the stripped group is nonempty, the reasoning is that stripped group
of the first reasoning-regex match, and the score is obtained by first-match
scanning of the full response text (not only the part after the reasoning
segment); a bare Score response always raises, a response whose reasoning
segment is only whitespace always raises, and a Reasoning-then-Score response
always succeeds for a scale containing 4. -/
theorem c1_parse_requires_reasoning :
    (∀ (r : String) (c : EvaluationCriterion), extractReasoning r.data = none →
        ∃ m, parse_criterion_score r c = .error (.valueError m)) ∧
    (∀ (r : String) (c : EvaluationCriterion) (g : List Char),
        extractReasoning r.data = some g → (pyStrip g).isEmpty = true →
        ∃ m, parse_criterion_score r c = .error (.valueError m)) ∧
    (∀ (r : String) (c : EvaluationCriterion) (s : CriterionScore),
        parse_criterion_score r c = .ok s →
        ∃ g run, extractReasoning r.data = some g ∧ (pyStrip g).isEmpty = false ∧
          s.reasoning = String.mk (pyStrip g) ∧
          findScoreNum r.data = some run ∧ validateScoreRun run = .ok s.score) ∧
    (∀ c : EvaluationCriterion,
        ∃ m, parse_criterion_score ("Score: 4") c = .error (.valueError m)) ∧
    (∀ c : EvaluationCriterion,
        ∃ m, parse_criterion_score ("Score: 4\nReasoning: ") c = .error (.valueError m)) ∧
    (∀ c : EvaluationCriterion, c.scale.1 ≤ 4 → 4 ≤ c.scale.2 →
        parse_criterion_score ("Reasoning: x\nScore: 4") c = .ok ⟨c, 4, "x"⟩) := by
  refine ⟨?_, ?_, ?_, ?_, ?_, ?_⟩
  · intro r c hnone
    refine ⟨"Reasoning is required before score", ?_⟩
    unfold parse_criterion_score
    rw [hnone]
  · intro r c g hg he
    refine ⟨"Reasoning is required before score and cannot be empty", ?_⟩
    unfold parse_criterion_score
    rw [hg]
    simp only [he, if_true]
  · intro r c s h
    rcases parse_ok_iff.mp h with ⟨g, run, v, hg, he, hrun, hv, _, _, rfl⟩
    exact ⟨g, run, hg, he, rfl, hrun, hv⟩
  · intro c
    refine ⟨"Reasoning is required before score", ?_⟩
    unfold parse_criterion_score
    rw [show extractReasoning (String.data ("Score: 4")) = none from by decide]
  · intro c
    refine ⟨"Reasoning is required before score and cannot be empty", ?_⟩
    unfold parse_criterion_score
    rw [show extractReasoning (String.data ("Score: 4\nReasoning: ")) = some ([' ']) from by decide]
    simp only [show (pyStrip ([' '])).isEmpty = true from by decide, if_true]
  · intro c h1 h2
    have h := @parse_ok_intro ("Reasoning: x\nScore: 4") c (['x', '\n']) (['4']) 4
      (by decide) (by decide) (by decide) (by decide) h1 h2
    rwa [show String.mk (pyStrip (['x', '\n'])) = "x" from by decide] at h

/-- Witness for the amended C1: the Reasoning-then-Score response succeeds for
the accuracy criterion, whose scale contains 4. -/
theorem c1_parse_requires_reasoning_witness :
    parse_criterion_score ("Reasoning: x\nScore: 4") accuracyCriterion =
      .ok ⟨accuracyCriterion, 4, "x"⟩ :=
  c1_parse_requires_reasoning.2.2.2.2.2 accuracyCriterion (by decide) (by decide)

/-- C5: in evaluate, criteria whose parse raises are dropped silently (the
surviving scores are exactly the criteria whose parse succeeded, in rubric
order), the total is the weight-normalized mean of the surviving scores or 0
when none survived; and the concrete scenario with rubric accuracy (1,5,w=1)
and judge text Reasoning-fine-Score-4 yields total 4 and a single score 4. -/
theorem c5_evaluate_total :
    (∀ (resp : String) (rubric : List EvaluationCriterion) (ref : Option String)
        (j : JudgeFn) (r : String) (rep : EvaluationReport),
        j 0 (build_evaluation_prompt resp rubric ref) = .ok r →
        evaluate resp rubric ref (some j) = .ok rep →
        rep.scores = rubric.filterMap (fun c => (parse_criterion_score r c).toOption) ∧
        rep.total = (if rep.scores.isEmpty then 0
          else sum_weighted rep.scores / sum_weights rep.scores)) ∧
    (evaluate ("answer") [accuracyCriterion] none
        (some (fun _ _ => .ok ("Reasoning: fine\nScore: 4")))).map
      (fun rep => (rep.total, rep.scores.map (fun s => s.score))) = .ok (4, [4]) := by
  constructor
  · intro resp rubric ref j r rep hj h
    exact evaluate_ok_spec hj h
  · with_unfolding_all decide

/-- Witness for C5: the general clause applied to the concrete scenario. -/
theorem c5_evaluate_total_witness :
    ([⟨accuracyCriterion, 4, "fine"⟩] : List CriterionScore) =
      [accuracyCriterion].filterMap
        (fun c => (parse_criterion_score ("Reasoning: fine\nScore: 4") c).toOption) ∧
    (4 : ℚ) = (if ([⟨accuracyCriterion, 4, "fine"⟩] : List CriterionScore).isEmpty then 0
      else sum_weighted [⟨accuracyCriterion, 4, "fine"⟩] / sum_weights [⟨accuracyCriterion, 4, "fine"⟩]) :=
  c5_evaluate_total.1 ("answer") [accuracyCriterion] none
    (fun _ _ => .ok ("Reasoning: fine\nScore: 4")) ("Reasoning: fine\nScore: 4")
    ⟨[⟨accuracyCriterion, 4, "fine"⟩], 4, "Reasoning: fine\nScore: 4",
      _build_standard_bias_checklist STANDARD_BIAS_CHECKS [], false, 1⟩
    rfl (by with_unfolding_all decide)

/-- C9: parse_criterion_score is criterion blind, so all scores of one
evaluate report carry the same integer value and the same reasoning string,
and (once one criterion parsed) a criterion of the rubric is represented in
the report exactly when the shared value lies within its scale. -/
theorem c9_evaluate_shared_score :
    ∀ (resp : String) (rubric : List EvaluationCriterion) (ref : Option String)
      (j : JudgeFn) (r : String) (rep : EvaluationReport),
      j 0 (build_evaluation_prompt resp rubric ref) = .ok r →
      evaluate resp rubric ref (some j) = .ok rep →
      (∀ s₁ ∈ rep.scores, ∀ s₂ ∈ rep.scores,
        s₁.score = s₂.score ∧ s₁.reasoning = s₂.reasoning) ∧
      (∀ s₀ ∈ rep.scores, ∀ c ∈ rubric,
        ((∃ s ∈ rep.scores, s.criterion = c) ↔
          (c.scale.1 ≤ s₀.score ∧ s₀.score ≤ c.scale.2))) := by
  intro resp rubric ref j r rep hj h
  obtain ⟨hscores, _⟩ := evaluate_ok_spec hj h
  have hmem : ∀ s ∈ rep.scores, ∃ c ∈ rubric, parse_criterion_score r c = .ok s := by
    intro s hs
    rw [hscores] at hs
    rcases List.mem_filterMap.mp hs with ⟨c, hc, hopt⟩
    exact ⟨c, hc, except_toOption_eq_some.mp hopt⟩
  constructor
  · intro s₁ hs₁ s₂ hs₂
    rcases hmem s₁ hs₁ with ⟨c₁, _, hp₁⟩
    rcases hmem s₂ hs₂ with ⟨c₂, _, hp₂⟩
    exact parse_blind hp₁ hp₂
  · intro s₀ hs₀ c hc
    rcases hmem s₀ hs₀ with ⟨c₀, _, hp₀⟩
    constructor
    · rintro ⟨s, hs, rfl⟩
      rcases hmem s hs with ⟨c', _, hp'⟩
      have hcrit := parse_ok_criterion hp'
      have hrange := parse_ok_range hp'
      obtain ⟨hbs, _⟩ := parse_blind hp' hp₀
      rw [hcrit]
      omega
    · rintro ⟨h1, h2⟩
      rcases parse_ok_iff.mp hp₀ with ⟨g, run, v, hg, he, hrun, hv, _, _, rfl⟩
      have hok := @parse_ok_intro r c g run v hg he hrun hv (by simpa using h1) (by simpa using h2)
      refine ⟨⟨c, v, String.mk (pyStrip g)⟩, ?_, rfl⟩
      rw [hscores]
      exact List.mem_filterMap.mpr ⟨c, hc, except_toOption_eq_some.mpr hok⟩

/-- Witness for C9: with rubric accuracy (1..5) and clarity (1..3) and the
shared parsed score 4, the clarity criterion is not represented because 4 is
outside its scale. -/
theorem c9_evaluate_shared_score_witness :
    (∃ s ∈ ([⟨accuracyCriterion, 4, "fine"⟩] : List CriterionScore),
      s.criterion = clarityCriterion) ↔
    (clarityCriterion.scale.1 ≤ (⟨accuracyCriterion, 4, "fine"⟩ : CriterionScore).score ∧
      (⟨accuracyCriterion, 4, "fine"⟩ : CriterionScore).score ≤ clarityCriterion.scale.2) :=
  (c9_evaluate_shared_score ("answer") [accuracyCriterion, clarityCriterion] none
      (fun _ _ => .ok ("Reasoning: fine\nScore: 4")) ("Reasoning: fine\nScore: 4")
      ⟨[⟨accuracyCriterion, 4, "fine"⟩], 4, "Reasoning: fine\nScore: 4",
        _build_standard_bias_checklist STANDARD_BIAS_CHECKS [], false, 1⟩
      rfl (by with_unfolding_all decide)).2
    ⟨accuracyCriterion, 4, "fine"⟩ (by simp) clarityCriterion (by simp)

/-- C8: evaluate, pairwise_compare and ensemble_vote do not catch an exception
raised by the judge callable: it propagates to the caller (ensemble_vote with
at least one judge to invoke). -/
theorem c8_invocation_error_propagates :
    ∀ (e : PyErr) (j : JudgeFn), (∀ i p, j i p = .error e) →
      ∀ (resp a b : String) (rubric : List EvaluationCriterion)
        (ref : Option String) (n : Nat), 1 ≤ n →
        evaluate resp rubric ref (some j) = .error e ∧
        pairwise_compare a b rubric (some j) = .error e ∧
        ensemble_vote resp rubric n (some j) = .error e := by
  intro e j hj resp a b rubric ref n hn
  refine ⟨?_, ?_, ?_⟩
  · unfold evaluate
    simp [hj 0]
  · unfold pairwise_compare
    simp [hj 0]
  · obtain ⟨m, rfl⟩ : ∃ m, n = m + 1 := ⟨n - 1, by omega⟩
    unfold ensemble_vote runTrials
    simp [hj 0]

/-- Witness for C8: a judge that always raises makes all three operations
propagate that exception. -/
theorem c8_invocation_error_propagates_witness :
    evaluate ("x") [accuracyCriterion] none
      (some (fun _ _ => .error (.valueError ("API error")))) =
        .error (.valueError ("API error")) ∧
    pairwise_compare ("p") ("q") [accuracyCriterion]
      (some (fun _ _ => .error (.valueError ("API error")))) =
        .error (.valueError ("API error")) ∧
    ensemble_vote ("x") [accuracyCriterion] 3
      (some (fun _ _ => .error (.valueError ("API error")))) =
        .error (.valueError ("API error")) :=
  c8_invocation_error_propagates (.valueError ("API error"))
    (fun _ _ => .error (.valueError ("API error"))) (fun _ _ => rfl)
    ("x") ("p") ("q") [accuracyCriterion] none 3 (by omega)

/-- C3: pairwise_compare translates the swapped winner back (A to B, B to A,
tie to tie), is stable exactly when the original winner equals the translated
swapped winner, and reconciles: stable keeps the original winner at
confidence 1; unstable with exactly one tie keeps the non-tie result at
confidence 0.5; unstable with two contradicting non-ties yields tie at
confidence 0.3. -/
theorem c3_pairwise_reconcile :
    ∀ (a b : String) (rubric : List EvaluationCriterion) (j : JudgeFn)
      (r1 r2 : String) (res : PairwiseResult),
      j 0 (build_pairwise_prompt a b rubric) = .ok r1 →
      j 1 (build_pairwise_prompt b a rubric) = .ok r2 →
      pairwise_compare a b rubric (some j) = .ok res →
      (translate_swapped ("A") = "B" ∧ translate_swapped ("B") = "A" ∧
        translate_swapped ("tie") = "tie") ∧
      res.stable = (_parse_winner r1 == translate_swapped (_parse_winner r2)) ∧
      (_parse_winner r1 = translate_swapped (_parse_winner r2) →
        res.winner = _parse_winner r1 ∧ res.confidence = 1) ∧
      (_parse_winner r1 ≠ translate_swapped (_parse_winner r2) →
        (_parse_winner r1 = "tie" →
          res.winner = translate_swapped (_parse_winner r2) ∧ res.confidence = 0.5) ∧
        (translate_swapped (_parse_winner r2) = "tie" →
          res.winner = _parse_winner r1 ∧ res.confidence = 0.5) ∧
        (_parse_winner r1 ≠ "tie" → translate_swapped (_parse_winner r2) ≠ "tie" →
          res.winner = "tie" ∧ res.confidence = 0.3)) := by
  intro a b rubric j r1 r2 res hj1 hj2 h
  unfold pairwise_compare at h
  simp only [] at h
  split at h
  · exact absurd h (by simp)
  · rename_i r1x hj1x
    rw [hj1] at hj1x
    injection hj1x with hj1e
    subst hj1e
    split at h
    · exact absurd h (by simp)
    · rename_i r2x hj2x
      rw [hj2] at hj2x
      injection hj2x with hj2e
      subst hj2e
      injection h with h
      subst h
      refine ⟨⟨by decide, by decide, by decide⟩, rfl, ?_, ?_⟩
      · intro hst
        have hb : (_parse_winner r1 == translate_swapped (_parse_winner r2)) = true := by
          simp [hst]
        simp only [hb, if_true]
        refine ⟨?_, ?_⟩ <;> trivial
      · intro hst
        have hb : (_parse_winner r1 == translate_swapped (_parse_winner r2)) = false := by
          simp [hst]
        refine ⟨?_, ?_, ?_⟩
        · intro ho
          have hbo : (_parse_winner r1 == "tie") = true := by simp [ho]
          have hbo2 : (_parse_winner r1 != "tie") = false := by simp [ho]
          simp only [hb, hbo, hbo2, Bool.false_eq_true, if_false, Bool.true_or, if_true]
          refine ⟨?_, ?_⟩ <;> trivial
        · intro ht
          have hne : _parse_winner r1 ≠ "tie" := by
            intro hcon
            exact hst (hcon.trans ht.symm)
          have hbt : (translate_swapped (_parse_winner r2) == "tie") = true := by simp [ht]
          have hbo : (_parse_winner r1 == "tie") = false := by simp [hne]
          have hbo2 : (_parse_winner r1 != "tie") = true := by simp [hne]
          simp only [hb, hbt, hbo, hbo2, Bool.false_eq_true, if_false, Bool.false_or,
            Bool.true_or, Bool.or_true, if_true]
          refine ⟨?_, ?_⟩ <;> trivial
        · intro hne1 hne2
          have hbo : (_parse_winner r1 == "tie") = false := by simp [hne1]
          have hbt : (translate_swapped (_parse_winner r2) == "tie") = false := by simp [hne2]
          simp only [hb, hbo, hbt, Bool.false_eq_true, if_false, Bool.or_self]
          refine ⟨?_, ?_⟩ <;> trivial

/-- Witness for C3: a judge answering A on the original order and B on the
swapped order is stable, so the final winner is A at confidence 1. -/
theorem c3_pairwise_reconcile_witness :
    (PairwiseResult.mk ("A") ("Original: Winner: A\nSwapped: Winner: B") true 1
        (_build_standard_bias_checklist PAIRWISE_BIAS_CHECKS
          [("position_bias", "Consistent across positions")])).winner =
      _parse_winner ("Winner: A") ∧
    (PairwiseResult.mk ("A") ("Original: Winner: A\nSwapped: Winner: B") true 1
        (_build_standard_bias_checklist PAIRWISE_BIAS_CHECKS
          [("position_bias", "Consistent across positions")])).confidence = 1 :=
  (c3_pairwise_reconcile ("p") ("q") []
      (fun i _ => if i = 0 then .ok ("Winner: A") else .ok ("Winner: B"))
      ("Winner: A") ("Winner: B")
      ⟨"A", "Original: Winner: A\nSwapped: Winner: B", true, 1,
        _build_standard_bias_checklist PAIRWISE_BIAS_CHECKS
          [("position_bias", "Consistent across positions")]⟩
      rfl rfl (by with_unfolding_all decide)).2.2.1 (by decide)

/-- String append acts on the character lists. -/
theorem dataAppend (s t : String) : (s ++ t).data = s.data ++ t.data := rfl

/-- A list starts with itself followed by anything. -/
theorem listStartsWith_append (p t : List Char) : listStartsWith p (p ++ t) = true := by
  induction p with
  | nil => rfl
  | cons c r ih => simp [listStartsWith, ih]

/-- A list that starts with the segment contains the segment. -/
theorem listContainsSeg_of_sw {p s : List Char} (h : listStartsWith p s = true) :
    listContainsSeg p s = true := by
  cases s with
  | nil => simpa [listContainsSeg] using h
  | cons c r => simp [listContainsSeg, h]

/-- Containment of a segment survives prepending. -/
theorem listContainsSeg_append {p s : List Char} (a : List Char)
    (h : listContainsSeg p s = true) : listContainsSeg p (a ++ s) = true := by
  induction a with
  | nil => simpa
  | cons c r ih => simp [listContainsSeg, ih]

/-- An Except value that is not ok has no toOption content. -/
theorem toOption_eq_none_of_not_isOk {α : Type} {x : Except PyErr α}
    (h : x.isOk = false) : x.toOption = none := by
  cases x with
  | error e => rfl
  | ok a => simp [Except.isOk, Except.toBool] at h

/-- C2 (spec-modelled, the method is absent from src/): multi_model_ensemble
never raises (it is total by type); when every judge fn raises, the report has
confidence 0, total 0, empty scores and a reasoning containing the 0-out-of-N
count; and a judge fn that raises is excluded from aggregation: inserting a
failing judge anywhere in the list changes neither the combined scores nor the
total. -/
theorem c2_multi_model_tolerates_failure :
    (∀ (resp : String) (rubric : List EvaluationCriterion) (ref : Option String)
        (fns : List (String → Except PyErr String)),
        (∀ f ∈ fns, (f (build_evaluation_prompt resp rubric ref)).isOk = false) →
        (multi_model_ensemble resp rubric fns ref).confidence = 0 ∧
        (multi_model_ensemble resp rubric fns ref).total = 0 ∧
        (multi_model_ensemble resp rubric fns ref).scores = [] ∧
        listContainsSeg (("0/" ++ toString fns.length)).data
          (multi_model_ensemble resp rubric fns ref).reasoning.data = true) ∧
    (∀ (resp : String) (rubric : List EvaluationCriterion) (ref : Option String)
        (fns₁ fns₂ : List (String → Except PyErr String))
        (bad : String → Except PyErr String),
        (bad (build_evaluation_prompt resp rubric ref)).isOk = false →
        (multi_model_ensemble resp rubric (fns₁ ++ bad :: fns₂) ref).scores =
          (multi_model_ensemble resp rubric (fns₁ ++ fns₂) ref).scores ∧
        (multi_model_ensemble resp rubric (fns₁ ++ bad :: fns₂) ref).total =
          (multi_model_ensemble resp rubric (fns₁ ++ fns₂) ref).total) := by
  constructor
  · intro resp rubric ref fns hall
    have hsucc : ((fns.map (fun f => f (build_evaluation_prompt resp rubric ref))).filterMap
        (fun o => o.toOption)) = [] := by
      rw [List.filterMap_eq_nil_iff]
      intro o ho
      rcases List.mem_map.mp ho with ⟨f, hf, rfl⟩
      exact toOption_eq_none_of_not_isOk (hall f hf)
    have key : multi_model_ensemble resp rubric fns ref =
        ⟨[], 0,
          "Multi-model ensemble: " ++
            (toString (0 : Nat) ++ "/" ++ toString fns.length ++ " judges succeeded") ++
            ". No valid evaluations.",
          _build_standard_bias_checklist (STANDARD_BIAS_CHECKS ++ ["cross_model_bias"])
            [("cross_model_bias", "Heterogeneous judge backends compared")],
          false, 0⟩ := by
      unfold multi_model_ensemble
      simp only [hsucc]
      rfl
    rw [key]
    refine ⟨rfl, rfl, rfl, ?_⟩
    rw [show toString (0 : Nat) = "0" from rfl]
    simp only [dataAppend, List.append_assoc]
    apply listContainsSeg_append
    apply listContainsSeg_of_sw
    simp only [List.cons_append, List.nil_append, listStartsWith, beq_self_eq_true,
      Bool.true_and]
    exact listStartsWith_append _ _
  · intro resp rubric ref fns₁ fns₂ bad hbad
    have hpad : (bad (build_evaluation_prompt resp rubric ref)).toOption = none :=
      toOption_eq_none_of_not_isOk hbad
    have hsucc : (((fns₁ ++ bad :: fns₂).map
          (fun f => f (build_evaluation_prompt resp rubric ref))).filterMap
        (fun o => o.toOption)) =
        (((fns₁ ++ fns₂).map
          (fun f => f (build_evaluation_prompt resp rubric ref))).filterMap
        (fun o => o.toOption)) := by
      simp [List.map_append, List.filterMap_append, hpad]
    unfold multi_model_ensemble
    constructor
    · simp only [hsucc]
      split
      · rfl
      · rfl
    · simp only [hsucc]
      split
      · rfl
      · rfl

/-- Witness for C2: three judges that all raise yield the zero report with a
0/3 reasoning. -/
theorem c2_multi_model_tolerates_failure_witness :
    (multi_model_ensemble ("x") [accuracyCriterion]
        [fun _ => .error (.valueError ("API error")), fun _ => .error (.valueError ("API error")),
          fun _ => .error (.valueError ("API error"))] none).confidence = 0 ∧
    (multi_model_ensemble ("x") [accuracyCriterion]
        [fun _ => .error (.valueError ("API error")), fun _ => .error (.valueError ("API error")),
          fun _ => .error (.valueError ("API error"))] none).total = 0 ∧
    (multi_model_ensemble ("x") [accuracyCriterion]
        [fun _ => .error (.valueError ("API error")), fun _ => .error (.valueError ("API error")),
          fun _ => .error (.valueError ("API error"))] none).scores = [] ∧
    listContainsSeg (("0/" ++ toString (List.length (α := String → Except PyErr String)
        [fun _ => .error (.valueError ("API error")), fun _ => .error (.valueError ("API error")),
          fun _ => .error (.valueError ("API error"))]))).data
      (multi_model_ensemble ("x") [accuracyCriterion]
        [fun _ => .error (.valueError ("API error")), fun _ => .error (.valueError ("API error")),
          fun _ => .error (.valueError ("API error"))] none).reasoning.data = true :=
  c2_multi_model_tolerates_failure.1 ("x") [accuracyCriterion] none
    [fun _ => .error (.valueError ("API error")), fun _ => .error (.valueError ("API error")),
      fun _ => .error (.valueError ("API error"))]
    (by
      intro f hf
      simp only [List.mem_cons, List.not_mem_nil, or_false] at hf
      rcases hf with rfl | rfl | rfl <;> rfl)

/-- The count of one value is at most the length. -/
theorem countZ_le_length (x : ℤ) (l : List ℤ) : countZ x l ≤ l.length := by
  induction l with
  | nil => simp [countZ]
  | cons y r ih =>
    simp only [countZ, List.length_cons]
    split <;> omega

/-- The majority scan never reports a count above the list length. -/
theorem bestOf_snd_le (l : List ℤ) (cands : List ℤ) :
    ∀ b : ℤ × Nat, b.2 ≤ l.length → (bestOf l b cands).2 ≤ l.length := by
  induction cands with
  | nil => intro b hb; exact hb
  | cons y r ih =>
    intro b hb
    rcases b with ⟨bx, bc⟩
    unfold bestOf
    split
    · exact ih _ (countZ_le_length y l)
    · exact ih _ hb

/-- The majority count is at most the list length. -/
theorem mostCommon_snd_le (l : List ℤ) : (mostCommon l).2 ≤ l.length := by
  cases l with
  | nil => simp [mostCommon]
  | cons x r =>
    unfold mostCommon
    exact bestOf_snd_le _ _ _ (countZ_le_length x (x :: r))

/-- A sum of nonnegative rationals is nonnegative. -/
theorem sumQ_nonneg {l : List ℚ} (h : ∀ x ∈ l, 0 ≤ x) : 0 ≤ sumQ l := by
  induction l with
  | nil => simp [sumQ]
  | cons x r ih =>
    simp only [sumQ]
    have hx := h x (by simp)
    have hr := ih (fun y hy => h y (by simp [hy]))
    linarith

/-- The sample variance of a list of length at least two is nonnegative. -/
theorem sampleVariance_nonneg {l : List ℚ} (h : 1 < l.length) : 0 ≤ sampleVariance l := by
  unfold sampleVariance
  apply div_nonneg
  · apply sumQ_nonneg
    intro x hx
    rcases List.mem_map.mp hx with ⟨y, _, rfl⟩
    positivity
  · have hcast : (1 : ℚ) < (l.length : ℚ) := by exact_mod_cast h
    linarith

/-- max_possible_variance is never negative. -/
theorem maxPossibleVariance_nonneg (rubric : List EvaluationCriterion) :
    0 ≤ maxPossibleVariance rubric := by
  cases rubric with
  | nil => norm_num [maxPossibleVariance]
  | cons c r =>
    unfold maxPossibleVariance
    positivity

/-- C10: the variance normalization of ensemble_vote has no zero guard: a
rubric whose first criterion has a degenerate scale (min = max) makes the
division raise ZeroDivisionError whenever at least two trials produced valid
totals; with a nondegenerate first scale, every returned report has a
confidence between 0 and 1. -/
theorem c10_degenerate_scale_division :
    (∀ (resp : String) (rubric : List EvaluationCriterion) (n : Nat) (j : JudgeFn)
        (trials : List EnsembleTrial) (c0 : EvaluationCriterion),
        rubric.head? = some c0 → c0.scale.1 = c0.scale.2 →
        runTrials j (build_evaluation_prompt resp rubric none) rubric 0 n = .ok trials →
        2 ≤ trials.length →
        ensemble_vote resp rubric n (some j) = .error .zeroDivisionError) ∧
    (∀ (resp : String) (rubric : List EvaluationCriterion) (n : Nat) (j : JudgeFn)
        (rep : EvaluationReport) (c0 : EvaluationCriterion),
        rubric.head? = some c0 → c0.scale.1 < c0.scale.2 →
        ensemble_vote resp rubric n (some j) = .ok rep →
        0 ≤ rep.confidence ∧ rep.confidence ≤ 1) := by
  constructor
  · intro resp rubric n j trials c0 hhead hsc hrt hlen
    rcases rubric with _ | ⟨c0x, rr⟩
    · exact absurd hhead (by simp)
    · simp only [List.head?_cons, Option.some.injEq] at hhead
      subst hhead
      have hm : maxPossibleVariance (c0x :: rr) = 0 := by
        show ((c0x.scale.2 - c0x.scale.1 : ℤ) : ℚ) ^ 2 / 4 = 0
        rw [hsc]
        simp
      rcases trials with _ | ⟨t0, ts⟩
      · simp at hlen
      · have h1 : 1 < ((t0 :: ts).map (fun t => t.total)).length := by
          simp only [List.length_map, List.length_cons]
          simp only [List.length_cons] at hlen
          omega
        unfold ensemble_vote
        simp only [hrt, List.isEmpty_cons, Bool.false_eq_true, if_false, hm, h1, if_true,
          eq_self_iff_true]
  · intro resp rubric n j rep c0 hhead hsc h
    unfold ensemble_vote at h
    simp only [] at h
    split at h
    · exact absurd h (by simp)
    · rename_i trials hrt
      split at h
      · injection h with h
        subst h
        norm_num
      · rename_i hne
        split at h
        · exact absurd h (by simp)
        · rename_i vf hvf
          injection h with h
          subst h
          have hlenpos : 0 < trials.length := by
            rcases trials with _ | ⟨t0, ts⟩
            · simp at hne
            · simp
          have hag0 : 0 ≤ ((mostCommon (((trials.map (fun t => t.total)).map pyRound))).2 : ℚ) /
              (((trials.map (fun t => t.total))).length : ℚ) := by
            apply div_nonneg
            · positivity
            · positivity
          have hag1 : ((mostCommon (((trials.map (fun t => t.total)).map pyRound))).2 : ℚ) /
              (((trials.map (fun t => t.total))).length : ℚ) ≤ 1 := by
            rw [div_le_one (by simp [List.length_map]; exact_mod_cast hlenpos)]
            have := mostCommon_snd_le ((trials.map (fun t => t.total)).map pyRound)
            simp only [List.length_map] at this ⊢
            exact_mod_cast this
          have hvf0 : 0 ≤ vf ∧ vf ≤ 1 := by
            split at hvf
            · split at hvf
              · exact absurd hvf (by simp)
              · rename_i hlen2 hmz
                injection hvf with hvf
                subst hvf
                constructor
                · have hmin : min (sampleVariance (trials.map (fun t => t.total)) /
                      maxPossibleVariance rubric) 1 ≤ 1 := min_le_right _ _
                  linarith
                · have hv : 0 ≤ sampleVariance (trials.map (fun t => t.total)) /
                      maxPossibleVariance rubric := by
                    apply div_nonneg
                    · exact sampleVariance_nonneg hlen2
                    · exact maxPossibleVariance_nonneg rubric
                  have hmin : 0 ≤ min (sampleVariance (trials.map (fun t => t.total)) /
                      maxPossibleVariance rubric) 1 := le_min hv (by norm_num)
                  linarith
            · injection hvf with hvf
              subst hvf
              norm_num
          obtain ⟨hv0, hv1⟩ := hvf0
          constructor
          · simp only []
            nlinarith [hag0, hag1, hv0, hv1]
          · simp only []
            nlinarith [hag0, hag1, hv0, hv1]

/-- Witness for C10: a degenerate scale (4, 4) with three identical parseable
scores raises ZeroDivisionError. -/
theorem c10_degenerate_scale_division_witness :
    ensemble_vote ("x") [⟨"q", "quality", (4, 4), 1⟩] 3
      (some (fun _ _ => .ok ("Reasoning: ok\nScore: 4"))) = .error .zeroDivisionError :=
  c10_degenerate_scale_division.1 ("x") [⟨"q", "quality", (4, 4), 1⟩] 3
    (fun _ _ => .ok ("Reasoning: ok\nScore: 4"))
    (List.replicate 3 ⟨[⟨⟨"q", "quality", (4, 4), 1⟩, 4, "ok"⟩], 4, "Reasoning: ok\nScore: 4"⟩)
    ⟨"q", "quality", (4, 4), 1⟩ rfl rfl (by with_unfolding_all decide) (by decide)

/-- Insertion commutes with the integer cast. -/
theorem insertSorted_map_intCast (x : ℤ) (l : List ℤ) :
    insertSorted ((x : ℚ)) (l.map (fun (z : ℤ) => (z : ℚ))) =
      (insertSortedZ x l).map (fun (z : ℤ) => (z : ℚ)) := by
  induction l with
  | nil => rfl
  | cons y r ih =>
    simp only [List.map_cons, insertSorted, insertSortedZ]
    by_cases hxy : x ≤ y
    · rw [if_pos (by exact_mod_cast hxy), if_pos hxy, List.map_cons, List.map_cons]
    · rw [if_neg (by exact_mod_cast hxy), if_neg hxy, ih, List.map_cons]

/-- Sorting commutes with the integer cast. -/
theorem sortQ_map_intCast (l : List ℤ) :
    sortQ (l.map (fun (z : ℤ) => (z : ℚ))) = (sortZ l).map (fun (z : ℤ) => (z : ℚ)) := by
  induction l with
  | nil => rfl
  | cons y r ih =>
    show insertSorted ((y : ℚ)) (sortQ (r.map (fun (z : ℤ) => (z : ℚ)))) = _
    rw [ih]
    exact insertSorted_map_intCast y (sortZ r)

/-- getD with default zero commutes with the integer cast. -/
theorem getD_map_intCast (l : List ℤ) (n : Nat) :
    (l.map (fun (z : ℤ) => (z : ℚ))).getD n 0 = ((l.getD n 0 : ℤ) : ℚ) := by
  induction l generalizing n with
  | nil => simp
  | cons y r ih =>
    cases n with
    | zero => simp
    | succ m => simpa using ih m

/-- Python int truncation is the identity on integers. -/
theorem pyTruncToward0_intCast (z : ℤ) : pyTruncToward0 ((z : ℚ)) = z := by
  unfold pyTruncToward0
  rw [Rat.num_intCast, Rat.den_intCast]
  simp

/-- Python round is the identity on integers. -/
theorem pyRound_intCast (z : ℤ) : pyRound ((z : ℚ)) = z := by
  unfold pyRound
  rw [Int.floor_intCast]
  norm_num

/-- When every surviving score carries the same value, the weighted sum is
that value times the weight sum. -/
theorem sum_weighted_const {S : List CriterionScore} {v : ℤ}
    (h : ∀ s ∈ S, s.score = v) : sum_weighted S = (v : ℚ) * sum_weights S := by
  induction S with
  | nil => simp [sum_weighted, sum_weights]
  | cons s r ih =>
    simp only [sum_weighted, sum_weights]
    rw [h s (by simp), ih (fun t ht => h t (by simp [ht]))]
    ring

/-- A constant judge makes every ensemble trial identical. -/
theorem runTrials_const {j : JudgeFn} {prompt r : String} {rubric : List EvaluationCriterion}
    (hj : ∀ i, j i prompt = .ok r)
    (hne : (rubric.filterMap (fun c => (parse_criterion_score r c).toOption)).isEmpty = false)
    (hw : sum_weights (rubric.filterMap (fun c => (parse_criterion_score r c).toOption)) ≠ 0) :
    ∀ (n i : Nat), runTrials j prompt rubric i n = .ok (List.replicate n
      ⟨rubric.filterMap (fun c => (parse_criterion_score r c).toOption),
        sum_weighted (rubric.filterMap (fun c => (parse_criterion_score r c).toOption)) /
          sum_weights (rubric.filterMap (fun c => (parse_criterion_score r c).toOption)), r⟩) := by
  intro n
  induction n with
  | zero => intro i; rfl
  | succ m ih =>
    intro i
    unfold runTrials
    rw [hj i]
    simp only [hne, Bool.false_eq_true, if_false, ih (i + 1)]
    rw [if_neg hw]
    rfl

/-- The explicit success form of ensemble_vote for at least two valid trials
and a nonzero variance normalizer. -/
theorem ensemble_vote_spec {resp : String} {rubric : List EvaluationCriterion}
    {n : Nat} {j : JudgeFn} {trials : List EnsembleTrial}
    (hrt : runTrials j (build_evaluation_prompt resp rubric none) rubric 0 n = .ok trials)
    (hne : trials.isEmpty = false) (hlen : 1 < trials.length)
    (hmpv : maxPossibleVariance rubric ≠ 0) :
    ensemble_vote resp rubric n (some j) = .ok
      ⟨combineScores rubric (trials.map (fun t => t.scores)),
        ((mostCommon ((trials.map (fun t => t.total)).map pyRound)).1 : ℚ),
        "Ensemble of " ++ toString n ++ " judges. Agreement: " ++
          formatPct (((mostCommon ((trials.map (fun t => t.total)).map pyRound)).2 : ℚ) /
            (((trials.map (fun t => t.total)).length : ℚ))),
        _build_standard_bias_checklist STANDARD_BIAS_CHECKS
          [("anchoring_bias", "Ensemble of " ++ toString n ++ " judges used")],
        trials.any (fun t => _parse_safety_flag t.raw),
        ((mostCommon ((trials.map (fun t => t.total)).map pyRound)).2 : ℚ) /
            (((trials.map (fun t => t.total)).length : ℚ)) * 0.7 +
          (1 - min (sampleVariance (trials.map (fun t => t.total)) /
            maxPossibleVariance rubric) 1) * 0.3⟩ := by
  have h1 : 1 < (trials.map (fun t => t.total)).length := by
    simpa [List.length_map] using hlen
  unfold ensemble_vote
  simp only [hrt, hne, Bool.false_eq_true, if_false, h1, if_true]
  rw [if_neg hmpv]

/-- The majority of three identical values is that value with count three. -/
theorem mostCommon_three (z : ℤ) : mostCommon [z, z, z] = (z, 3) := by
  simp [mostCommon, dedupFirst, dedupGo, bestOf, countZ]

/-- The sample variance of three identical values is zero. -/
theorem sampleVariance_const3 (t : ℚ) : sampleVariance [t, t, t] = 0 := by
  unfold sampleVariance
  have h3 : sumQ [t, t, t] = 3 * t := by
    simp [sumQ]
    ring
  rw [h3]
  have hm : 3 * t / (([t, t, t] : List ℚ).length : ℚ) = t := by
    norm_num
  rw [hm]
  simp [sumQ]

/-- Counterexample for C4: with the degenerate scale (4, 4), every call
returns the identical parseable score 4, yet ensemble_vote raises
ZeroDivisionError instead of returning a report with confidence at least 0.9
and total 4 as the claim asserts. -/
theorem c4_counterexample :
    ensemble_vote ("x") [⟨"q", "quality", (4, 4), 1⟩] 3
      (some (fun _ _ => .ok ("Reasoning: ok\nScore: 4"))) = .error .zeroDivisionError := by
  with_unfolding_all decide

/-- C4 as amended: for at least two valid trials the confidence is
0.7·agreement + 0.3·(1 − min(variance/max_possible_variance, 1)) with
max_possible_variance = (scale range)²/4 from the first criterion; and for
n_judges = 3 with every call returning the identical parseable score the
report has confidence at least 0.9 and total equal to that score, provided
the first criterion has a nondegenerate scale (min < max) — with min = max
the normalization divides by zero and raises instead. -/
theorem c4_ensemble_confidence :
    (∀ (resp : String) (rubric : List EvaluationCriterion) (n : Nat) (j : JudgeFn)
        (trials : List EnsembleTrial) (rep : EvaluationReport),
        runTrials j (build_evaluation_prompt resp rubric none) rubric 0 n = .ok trials →
        1 < trials.length →
        ensemble_vote resp rubric n (some j) = .ok rep →
        rep.confidence =
          ((mostCommon ((trials.map (fun t => t.total)).map pyRound)).2 : ℚ) /
              (trials.length : ℚ) * 0.7 +
            (1 - min (sampleVariance (trials.map (fun t => t.total)) /
              maxPossibleVariance rubric) 1) * 0.3) ∧
    (∀ (resp r : String) (rubric : List EvaluationCriterion) (j : JudgeFn)
        (c0 : EvaluationCriterion) (sc0 : CriterionScore),
        rubric.head? = some c0 → c0.scale.1 < c0.scale.2 →
        (∀ i, j i (build_evaluation_prompt resp rubric none) = .ok r) →
        (rubric.filterMap (fun c => (parse_criterion_score r c).toOption)).head? = some sc0 →
        sum_weights (rubric.filterMap (fun c => (parse_criterion_score r c).toOption)) ≠ 0 →
        ∃ rep, ensemble_vote resp rubric 3 (some j) = .ok rep ∧
          (9 : ℚ) / 10 ≤ rep.confidence ∧ rep.total = (sc0.score : ℚ)) := by
  constructor
  · intro resp rubric n j trials rep hrt hlen h
    have hne : trials.isEmpty = false := by
      rcases trials with _ | ⟨a, b⟩
      · simp at hlen
      · rfl
    have h1 : 1 < (trials.map (fun t => t.total)).length := by
      simpa [List.length_map] using hlen
    unfold ensemble_vote at h
    simp only [hrt, hne, Bool.false_eq_true, if_false, h1, if_true] at h
    split at h
    · simp at h
    · rename_i hmz
      injection h with h
      subst h
      split at hmz
      · simp at hmz
      · injection hmz with hmz
        subst hmz
        simp only [List.length_map]
  · intro resp r rubric j c0 sc0 hhead hsc hj hS hw
    rcases rubric with _ | ⟨c0x, rr⟩
    · exact absurd hhead (by simp)
    simp only [List.head?_cons, Option.some.injEq] at hhead
    subst hhead
    have hSne : ((c0x :: rr).filterMap
        (fun c => (parse_criterion_score r c).toOption)).isEmpty = false := by
      rcases hfm : (c0x :: rr).filterMap (fun c => (parse_criterion_score r c).toOption)
          with _ | ⟨a, b⟩
      · rw [hfm] at hS; simp at hS
      · rfl
    have hmem0 : sc0 ∈ (c0x :: rr).filterMap
        (fun c => (parse_criterion_score r c).toOption) := by
      rcases hfm : (c0x :: rr).filterMap (fun c => (parse_criterion_score r c).toOption)
          with _ | ⟨a, b⟩
      · rw [hfm] at hS; simp at hS
      · rw [hfm] at hS
        simp only [List.head?_cons, Option.some.injEq] at hS
        subst hS
        simp
    have hall : ∀ s ∈ (c0x :: rr).filterMap
        (fun c => (parse_criterion_score r c).toOption), s.score = sc0.score := by
      intro s hs
      rcases List.mem_filterMap.mp hs with ⟨c, hc, hopt⟩
      rcases List.mem_filterMap.mp hmem0 with ⟨c', hc', hopt'⟩
      exact (parse_blind (except_toOption_eq_some.mp hopt)
        (except_toOption_eq_some.mp hopt')).1
    have ht : sum_weighted ((c0x :: rr).filterMap
          (fun c => (parse_criterion_score r c).toOption)) /
        sum_weights ((c0x :: rr).filterMap
          (fun c => (parse_criterion_score r c).toOption)) = (sc0.score : ℚ) := by
      rw [sum_weighted_const hall, mul_div_assoc, div_self hw, mul_one]
    have hrt := runTrials_const hj hSne hw 3 0
    have hmpv : maxPossibleVariance (c0x :: rr) ≠ 0 := by
      show ((c0x.scale.2 - c0x.scale.1 : ℤ) : ℚ) ^ 2 / 4 ≠ 0
      have hpos : (0 : ℚ) < ((c0x.scale.2 - c0x.scale.1 : ℤ) : ℚ) := by
        exact_mod_cast (by omega : (0 : ℤ) < c0x.scale.2 - c0x.scale.1)
      positivity
    have hev := ensemble_vote_spec hrt rfl (by simp) hmpv
    refine ⟨_, hev, ?_, ?_⟩
    · show (9 : ℚ) / 10 ≤
        ((mostCommon (((List.replicate 3 (⟨_, _, r⟩ : EnsembleTrial)).map
            (fun t => t.total)).map pyRound)).2 : ℚ) /
          ((((List.replicate 3 (⟨_, _, r⟩ : EnsembleTrial)).map
            (fun t => t.total)).length : ℚ)) * 0.7 +
        (1 - min (sampleVariance ((List.replicate 3 (⟨_, _, r⟩ : EnsembleTrial)).map
            (fun t => t.total)) / maxPossibleVariance (c0x :: rr)) 1) * 0.3
      simp only [List.map_replicate]
      rw [ht]
      simp only [List.map_replicate, pyRound_intCast, List.length_replicate]
      rw [show (List.replicate 3 sc0.score) = [sc0.score, sc0.score, sc0.score] from rfl,
        mostCommon_three,
        show (List.replicate 3 ((sc0.score : ℚ))) = [(sc0.score : ℚ), (sc0.score : ℚ),
          (sc0.score : ℚ)] from rfl, sampleVariance_const3, zero_div]
      norm_num
    · show ((mostCommon (((List.replicate 3 (⟨_, _, r⟩ : EnsembleTrial)).map
          (fun t => t.total)).map pyRound)).1 : ℚ) = (sc0.score : ℚ)
      simp only [List.map_replicate]
      rw [ht]
      simp only [List.map_replicate, pyRound_intCast]
      rw [show (List.replicate 3 sc0.score) = [sc0.score, sc0.score, sc0.score] from rfl,
        mostCommon_three]

/-- Witness for C4: rubric accuracy (1..5), three identical judge responses
scoring 4, yields a report with confidence at least 0.9 and total 4. -/
theorem c4_ensemble_confidence_witness :
    ∃ rep, ensemble_vote ("x") [accuracyCriterion] 3
        (some (fun _ _ => .ok ("Reasoning: ok\nScore: 4"))) = .ok rep ∧
      (9 : ℚ) / 10 ≤ rep.confidence ∧
      rep.total = (((⟨accuracyCriterion, 4, "ok"⟩ : CriterionScore)).score : ℚ) :=
  c4_ensemble_confidence.2 ("x") ("Reasoning: ok\nScore: 4") [accuracyCriterion]
    (fun _ _ => .ok ("Reasoning: ok\nScore: 4")) accuracyCriterion
    ⟨accuracyCriterion, 4, "ok"⟩ rfl (by decide) (fun i => rfl)
    (by with_unfolding_all decide) (by with_unfolding_all decide)

/-- Counterexample for C7: two judges scoring 3 and 4 on the same criterion
give the combined score int(median([3,4])) = int(3.5) = 3, which is not the
median 3.5; the claim that the combined score is the median fails for even
counts. -/
theorem c7_counterexample :
    (ensemble_vote ("x") [accuracyCriterion] 2 (some (fun i _ =>
        .ok (if i = 0 then "Reasoning: a\nScore: 3" else "Reasoning: b\nScore: 4")))).map
      (fun rep => rep.scores.map (fun s => s.score)) = .ok [3] ∧
    pyMedian [(3 : ℚ), 4] = 7 / 2 ∧ ((3 : ℚ) ≠ 7 / 2) := by
  refine ⟨?_, ?_, ?_⟩ <;> with_unfolding_all decide

/-- C7 as amended: each criterion entry of the returned report is the
truncation toward zero of the median of that criterion's parsed scores across
the judges that produced one, with the pipe-joined first-100-characters
combined reasoning, and criteria that no judge scored are omitted (all of
which is the content of combineScores); for an odd number of contributing
scores the truncated median is exactly the median. -/
theorem c7_combined_median :
    (∀ (resp : String) (rubric : List EvaluationCriterion) (n : Nat) (j : JudgeFn)
        (trials : List EnsembleTrial) (rep : EvaluationReport),
        runTrials j (build_evaluation_prompt resp rubric none) rubric 0 n = .ok trials →
        trials.isEmpty = false →
        ensemble_vote resp rubric n (some j) = .ok rep →
        rep.scores = combineScores rubric (trials.map (fun t => t.scores))) ∧
    (∀ (l : List ℤ), l.length % 2 = 1 →
        ((pyTruncToward0 (pyMedian (l.map (fun (z : ℤ) => (z : ℚ))))) : ℚ) =
          pyMedian (l.map (fun (z : ℤ) => (z : ℚ)))) := by
  constructor
  · intro resp rubric n j trials rep hrt hne h
    unfold ensemble_vote at h
    simp only [hrt, hne, Bool.false_eq_true, if_false] at h
    split at h
    · simp at h
    · injection h with h
      subst h
      rfl
  · intro l hodd
    have hm : pyMedian (l.map (fun (z : ℤ) => (z : ℚ))) =
        (((sortZ l).getD (l.length / 2) 0 : ℤ) : ℚ) := by
      unfold pyMedian
      rw [sortQ_map_intCast, List.length_map, if_pos hodd, getD_map_intCast]
    rw [hm, pyTruncToward0_intCast]

/-- Witness for C7: for the odd count [3, 4, 5] the truncated median equals
the median 4. -/
theorem c7_combined_median_witness :
    ((pyTruncToward0 (pyMedian ([3, 4, 5].map (fun (z : ℤ) => (z : ℚ))))) : ℚ) =
      pyMedian ([3, 4, 5].map (fun (z : ℤ) => (z : ℚ))) :=
  c7_combined_median.2 [3, 4, 5] (by decide)
